import Mathlib

/-!
Verification of the chat-completion client in `src/apis/chat.rs`.

The embedding models:
  - JSON values (`serde_json::Value`) as the inductive `Json`; object fields
    are kept as an association list in struct declaration order (the claims
    under study only speak about key sets and about array order, never about
    object key order, so the difference from the alphabetically sorted
    `serde_json::Map` is irrelevant to every statement below);
  - `f32` / `f64` as the type `F`: finite values carried as exact rationals,
    plus the non-finite values `nan`, `inf`, `neginf`.  Rust float rounding
    `f64::round` (round half away from zero) becomes `rustRound` on the
    rational payload; `serde_json` encodes non-finite floats as JSON null;
  - the struct `ChatBody`, whose serde serialization (with
    `skip_serializing_if = "Option::is_none"` on every optional field and
    `serialize_with = "serialize_f32_two_decimals"` on the four float
    fields) becomes `ChatBody.toValue`;
  - `chat_completion_create` over an abstract collaborator `post`; its two
    `unwrap()` calls are modelled by the `Outcome.panicked` constructor; the
    returned pair additionally records the list of request bodies handed to
    `post`, so that call counts can be stated.
-/

/-- Model of `serde_json::Value`.  Numbers are exact rationals. -/
inductive Json : Type where
  | null : Json
  | bool (b : Bool) : Json
  | num (q : ℚ) : Json
  | str (s : String) : Json
  | arr (elems : List Json) : Json
  | obj (fields : List (String × Json)) : Json

/-- Key lookup in an association list of JSON object fields, first match wins. -/
def lookupField : List (String × Json) → String → Option Json
  | [], _ => none
  | p :: t, k => if p.1 = k then some p.2 else lookupField t k

/-- Lookup of a key in a JSON value; `none` on non-objects. -/
def Json.lookupKey (j : Json) (k : String) : Option Json :=
  match j with
  | .obj fs => lookupField fs k
  | _ => none

/-- The keys of a JSON object, in emission order. -/
def Json.keys (j : Json) : List String :=
  match j with
  | .obj fs => fs.map Prod.fst
  | _ => []

/-- Model of Rust floating point values (`f32` and `f64`): finite values as
exact rationals together with the non-finite values.  The widening cast
`as f64` in the source is exact, so one type serves both widths. -/
inductive F : Type where
  | finite (q : ℚ) : F
  | nan : F
  | inf : F
  | neginf : F
deriving DecidableEq

/-- `f64::round`: nearest integer, ties away from zero. -/
def rustRound (q : ℚ) : ℤ :=
  if 0 ≤ q then ⌊q + 1 / 2⌋ else ⌈q - 1 / 2⌉

/-- Multiplication by the literal `100.0`; absorbing on non-finite values. -/
def F.mul100 : F → F
  | .finite q => .finite (q * 100)
  | .nan => .nan
  | .inf => .inf
  | .neginf => .neginf

/-- `f64::round` lifted to `F`; the non-finite values round to themselves. -/
def F.round : F → F
  | .finite q => .finite ((rustRound q : ℤ) : ℚ)
  | .nan => .nan
  | .inf => .inf
  | .neginf => .neginf

/-- Division by the literal `100.0`; absorbing on non-finite values. -/
def F.div100 : F → F
  | .finite q => .finite (q / 100)
  | .nan => .nan
  | .inf => .inf
  | .neginf => .neginf

/-- The transform `(*v as f64 * 100.0).round() / 100.0` from line 17 of
`chat.rs`. -/
def roundTwoDecimals (v : F) : F :=
  (v.mul100).round.div100

/-- `Serializer::serialize_f64` as implemented by the `serde_json::Value`
serializer: a finite float becomes a JSON number, a non-finite float
becomes JSON null (`serde_json::Value::from(f64)`). -/
def serializeF64 : F → Json
  | .finite q => .num q
  | _ => .null

/-- The custom field serializer `serialize_f32_two_decimals` of `chat.rs`
lines 12-20: on `Some v` it emits the two-decimal rounding of `v` as an
`f64`, on `None` it emits an explicit null (`serialize_none`). -/
def serialize_f32_two_decimals : Option F → Json
  | some v => serializeF64 (roundTwoDecimals v)
  | none => .null

/-- Conversation role.  Modelled from the spec: the `Role` enumeration lives
in a module of this repository that is not under `src/`; §3 of the spec
gives the system / user / assistant variants, encoded as lowercase strings. -/
inductive Role : Type where
  | system : Role
  | user : Role
  | assistant : Role
deriving DecidableEq

/-- Wire encoding of a role.  Modelled from the spec, §4.1. -/
def Role.toWire : Role → String
  | .system => "system"
  | .user => "user"
  | .assistant => "assistant"

/-- A conversational turn.  Modelled from the spec, §3: the `Message` struct
lives in a module of this repository that is not under `src/`. -/
structure Message : Type where
  role : Role
  content : String
deriving DecidableEq

/-- Serialization of one message: an object with `role` and `content`
string fields (spec §4.1; serde derive on the struct). -/
def Message.toValue (m : Message) : Json :=
  .obj [("role", .str m.role.toWire), ("content", .str m.content)]

/-- The request struct `ChatBody` of `chat.rs` lines 25-91.  Floats are
modelled by `F`, `i32` by `Int`, `HashMap<String, String>` by an
association list. -/
structure ChatBody : Type where
  model : String
  messages : List Message
  temperature : Option F
  top_p : Option F
  n : Option Int
  stream : Option Bool
  stop : Option (List String)
  max_tokens : Option Int
  presence_penalty : Option F
  frequency_penalty : Option F
  logit_bias : Option (List (String × String))
  user : Option String

/-- One optional serde field: skipped entirely when the option is `none`
(`skip_serializing_if = "Option::is_none"`), a single key-value pair
otherwise. -/
def optField (name : String) : Option Json → List (String × Json)
  | none => []
  | some j => [(name, j)]

/-- The serde serialization of `ChatBody` into a `serde_json::Value`
(`serde_json::to_value`), field by field in declaration order.  Every
optional field carries `skip_serializing_if = "Option::is_none"`; the four
float fields additionally carry
`serialize_with = "serialize_f32_two_decimals"`, which serde invokes with
the whole (necessarily `some`) option once the skip check has passed. -/
def ChatBody.fields (b : ChatBody) : List (String × Json) :=
  ("model", .str b.model) ::
  ("messages", .arr (b.messages.map Message.toValue)) ::
  (optField "temperature" (b.temperature.map (fun v => serialize_f32_two_decimals (some v))) ++
    (optField "top_p" (b.top_p.map (fun v => serialize_f32_two_decimals (some v))) ++
      (optField "n" (b.n.map (fun (i : Int) => Json.num (i : ℚ))) ++
        (optField "stream" (b.stream.map Json.bool) ++
          (optField "stop" (b.stop.map (fun l => Json.arr (l.map Json.str))) ++
            (optField "max_tokens" (b.max_tokens.map (fun (i : Int) => Json.num (i : ℚ))) ++
              (optField "presence_penalty" (b.presence_penalty.map (fun v => serialize_f32_two_decimals (some v))) ++
                (optField "frequency_penalty" (b.frequency_penalty.map (fun v => serialize_f32_two_decimals (some v))) ++
                  (optField "logit_bias" (b.logit_bias.map (fun l => Json.obj (l.map (fun p => (p.1, Json.str p.2))))) ++
                    optField "user" (b.user.map Json.str))))))))))

/-- `serde_json::to_value(chat_body)`: always succeeds on `ChatBody`
(every field serializer is infallible on the `Value` serializer; a
non-finite float becomes null rather than an error). -/
def ChatBody.toValue (b : ChatBody) : Json :=
  .obj b.fields

/-- Variant of `serialize_f32_two_decimals` in which the `None` arm is
replaced by a marker value that the real serializer can never emit: proving
`ChatBody.toValue` equal to the serialization built on this variant shows
the `None` arm dead during serialization of any `ChatBody`. -/
def serialize_f32_two_decimals_marked : Option F → Json
  | some v => serializeF64 (roundTwoDecimals v)
  | none => .str "UNREACHABLE"

/-- `ChatBody.fields` with the marked serializer substituted for
`serialize_f32_two_decimals` on the four float fields. -/
def ChatBody.fieldsMarked (b : ChatBody) : List (String × Json) :=
  ("model", .str b.model) ::
  ("messages", .arr (b.messages.map Message.toValue)) ::
  (optField "temperature" (b.temperature.map (fun v => serialize_f32_two_decimals_marked (some v))) ++
    (optField "top_p" (b.top_p.map (fun v => serialize_f32_two_decimals_marked (some v))) ++
      (optField "n" (b.n.map (fun (i : Int) => Json.num (i : ℚ))) ++
        (optField "stream" (b.stream.map Json.bool) ++
          (optField "stop" (b.stop.map (fun l => Json.arr (l.map Json.str))) ++
            (optField "max_tokens" (b.max_tokens.map (fun (i : Int) => Json.num (i : ℚ))) ++
              (optField "presence_penalty" (b.presence_penalty.map (fun v => serialize_f32_two_decimals_marked (some v))) ++
                (optField "frequency_penalty" (b.frequency_penalty.map (fun v => serialize_f32_two_decimals_marked (some v))) ++
                  (optField "logit_bias" (b.logit_bias.map (fun l => Json.obj (l.map (fun p => (p.1, Json.str p.2))))) ++
                    optField "user" (b.user.map Json.str))))))))))

/-- Serialization built on the marked serializer. -/
def ChatBody.toValueMarked (b : ChatBody) : Json :=
  .obj b.fieldsMarked

/-- One candidate completion.  Modelled from the spec, §3: `Choice` lives in
`completions.rs`, which is not under `src/`; each choice optionally carries
a returned message. -/
structure Choice : Type where
  message : Option Message
deriving DecidableEq

/-- The response entity.  Modelled from the spec, §3: `Completion` lives in
`completions.rs`, which is not under `src/`; it contains an ordered
sequence of choices. -/
structure Completion : Type where
  choices : List Choice
deriving DecidableEq

/-- Deserialization of a message object.  Modelled from the spec, §6: an
object with `role` and `content` string fields. -/
def messageFromValue (j : Json) : Option Message :=
  match j with
  | .obj fs =>
    match lookupField fs "role", lookupField fs "content" with
    | some (.str r), some (.str c) =>
      if r = "system" then some ⟨.system, c⟩
      else if r = "user" then some ⟨.user, c⟩
      else if r = "assistant" then some ⟨.assistant, c⟩
      else none
    | _, _ => none
  | _ => none

/-- Deserialization of one choice object.  Modelled from the spec, §3 and §6:
the message field is optional; when present it must parse. -/
def choiceFromValue (j : Json) : Option Choice :=
  match j with
  | .obj fs =>
    match lookupField fs "message" with
    | none => some ⟨none⟩
    | some mj => (messageFromValue mj).map (fun m => ⟨some m⟩)
  | _ => none

/-- `serde_json::from_value::<Completion>`.  Modelled from the spec, §6 and
§8: the response body must be an object carrying a `choices` array whose
elements all parse; a body missing the `choices` array fails to parse. -/
def completionFromValue (j : Json) : Option Completion :=
  match j with
  | .obj fs =>
    match lookupField fs "choices" with
    | some (.arr xs) => (xs.mapM choiceFromValue).map Completion.mk
    | _ => none
  | _ => none

/-- The error taxonomy of spec §7.  Modelled from the spec: the error enum
of this repository lives in a module that is not under `src/`. -/
inductive ApiErr : Type where
  | EncodingError (msg : String) : ApiErr
  | TransportError (msg : String) : ApiErr
  | DecodingError (msg : String) : ApiErr
deriving DecidableEq

/-- Result of one invocation, with a constructor for a Rust panic: the two
`unwrap()` calls of `chat_completion_create` abort instead of returning. -/
inductive Outcome (α : Type) : Type where
  | ok (a : α) : Outcome α
  | err (e : ApiErr) : Outcome α
  | panicked (msg : String) : Outcome α
deriving DecidableEq

/-- Whether an outcome is a returned `DecodingError`. -/
def Outcome.isDecodingError : Outcome α → Bool
  | .err (.DecodingError _) => true
  | _ => false

/-- Whether an outcome is a returned `EncodingError`. -/
def Outcome.isEncodingError : Outcome α → Bool
  | .err (.EncodingError _) => true
  | _ => false

/-- Whether an outcome is a successfully returned value. -/
def Outcome.isOk : Outcome α → Bool
  | .ok _ => true
  | _ => false

/-- `chat_completion_create` of `chat.rs` lines 99-104, over an abstract
collaborator `post` (spec §6: `post(path, jsonBody)`, the path being the
fixed `CHAT_COMPLETION_CREATE` constant; a transport failure carries the
collaborator diagnostic, propagated verbatim by the `?` operator as the
spec TransportError).  The second component records every request body
handed to `post`, in order.  Line 100 `serde_json::to_value(..).unwrap()`
cannot panic because `ChatBody.toValue` is total; line 102
`serde_json::from_value(..).unwrap()` panics when the body does not parse. -/
def chat_completion_create (post : Json → Except String Json) (chat_body : ChatBody) :
    Outcome Completion × List Json :=
  let request_body := chat_body.toValue
  match post request_body with
  | .error e => (.err (.TransportError e), [request_body])
  | .ok res =>
    match completionFromValue res with
    | some completion => (.ok completion, [request_body])
    | none => (.panicked "called Result unwrap on an Err value", [request_body])

/-- A request with every optional field unset. -/
def bodyAllUnset : ChatBody :=
  { model := "gpt-3.5-turbo"
    messages := [⟨Role.user, "Hello!"⟩]
    temperature := none
    top_p := none
    n := none
    stream := none
    stop := none
    max_tokens := none
    presence_penalty := none
    frequency_penalty := none
    logit_bias := none
    user := none }

/-- The request of the end-to-end scenario (spec §8 and the
`test_chat_completion` test, `chat.rs` lines 113-134). -/
def body7 : ChatBody :=
  { model := "gpt-3.5-turbo"
    messages := [⟨Role.user, "Hello!"⟩]
    temperature := some (F.finite 0)
    top_p := some (F.finite 0)
    n := some 2
    stream := some false
    stop := none
    max_tokens := some 7
    presence_penalty := none
    frequency_penalty := none
    logit_bias := none
    user := none }

/-- A request whose four rounded fields are all set to one half. -/
def bodyHalf : ChatBody :=
  { bodyAllUnset with
    temperature := some (F.finite (1 / 2))
    top_p := some (F.finite (1 / 2))
    presence_penalty := some (F.finite (1 / 2))
    frequency_penalty := some (F.finite (1 / 2)) }

/-- A request carrying a non-finite temperature. -/
def bodyNan : ChatBody :=
  { bodyAllUnset with temperature := some F.nan }

/-- A request carrying five stop sequences: representable, since the struct
places no bound on the length of the `stop` vector. -/
def bodyFiveStops : ChatBody :=
  { bodyAllUnset with stop := some ["a", "b", "c", "d", "e"] }

/-- A collaborator whose POST fails at transport level. -/
def postFail : Json → Except String Json :=
  fun _ => .error "connection refused"

/-- A collaborator answering with valid JSON that lacks the `choices` array. -/
def postNoChoices : Json → Except String Json :=
  fun _ => .ok (Json.obj [("id", Json.str "chatcmpl-1")])

/-- A collaborator answering with a minimal well-formed completion. -/
def postEmptyChoices : Json → Except String Json :=
  fun _ => .ok (Json.obj [("choices", Json.arr [])])

/-! Helper lemmas about field lookup and key membership. -/

theorem lookupField_append_of_forall_ne {k : String} {l₁ l₂ : List (String × Json)}
    (h : ∀ p ∈ l₁, p.1 ≠ k) :
    lookupField (l₁ ++ l₂) k = lookupField l₂ k := by
  induction l₁ with
  | nil => rfl
  | cons p t ih =>
    simp only [List.cons_append, lookupField, if_neg (h p (List.mem_cons_self p t))]
    exact ih fun q hq => h q (List.mem_cons_of_mem p hq)

theorem lookupField_optField_append_ne {k n : String} {o : Option Json}
    {rest : List (String × Json)} (h : n ≠ k) :
    lookupField (optField n o ++ rest) k = lookupField rest k := by
  cases o with
  | none => rfl
  | some j =>
    simp [optField, lookupField, h]

theorem lookupField_optField_append_hit {k : String} {j : Json}
    {rest : List (String × Json)} :
    lookupField (optField k (some j) ++ rest) k = some j := by
  simp [optField, lookupField]

theorem lookupField_optField_ne {k n : String} {o : Option Json} (h : n ≠ k) :
    lookupField (optField n o) k = none := by
  cases o with
  | none => rfl
  | some j => simp [optField, lookupField, h]

theorem lookupField_optField_hit {k : String} {j : Json} :
    lookupField (optField k (some j)) k = some j := by
  simp [optField, lookupField]

theorem lookupField_cons_ne {k : String} {p : String × Json}
    {t : List (String × Json)} (h : p.1 ≠ k) :
    lookupField (p :: t) k = lookupField t k := by
  simp [lookupField, h]

theorem mem_map_fst_optField {k n : String} {o : Option Json} :
    k ∈ (optField n o).map Prod.fst ↔ k = n ∧ o.isSome := by
  cases o <;> simp [optField]

theorem isSome_map {α β : Type} (f : α → β) (o : Option α) :
    (Option.map f o).isSome = o.isSome := by
  cases o <;> rfl

/-- Characterization of the keys of a serialized `ChatBody`: the two
required fields plus exactly those optional fields that are set. -/
theorem mem_map_fst_fields {b : ChatBody} {k : String} :
    k ∈ (ChatBody.fields b).map Prod.fst ↔
      k = "model" ∨ k = "messages" ∨
      (k = "temperature" ∧ b.temperature.isSome) ∨
      (k = "top_p" ∧ b.top_p.isSome) ∨
      (k = "n" ∧ b.n.isSome) ∨
      (k = "stream" ∧ b.stream.isSome) ∨
      (k = "stop" ∧ b.stop.isSome) ∨
      (k = "max_tokens" ∧ b.max_tokens.isSome) ∨
      (k = "presence_penalty" ∧ b.presence_penalty.isSome) ∨
      (k = "frequency_penalty" ∧ b.frequency_penalty.isSome) ∨
      (k = "logit_bias" ∧ b.logit_bias.isSome) ∨
      (k = "user" ∧ b.user.isSome) := by
  simp only [ChatBody.fields, List.map_cons, List.map_append, List.mem_cons,
    List.mem_append, mem_map_fst_optField, isSome_map]

/-- Key membership in a serialized request, lifted to `ChatBody.toValue`. -/
theorem mem_keys_toValue {b : ChatBody} {k : String} :
    k ∈ (ChatBody.toValue b).keys ↔
      k = "model" ∨ k = "messages" ∨
      (k = "temperature" ∧ b.temperature.isSome) ∨
      (k = "top_p" ∧ b.top_p.isSome) ∨
      (k = "n" ∧ b.n.isSome) ∨
      (k = "stream" ∧ b.stream.isSome) ∨
      (k = "stop" ∧ b.stop.isSome) ∨
      (k = "max_tokens" ∧ b.max_tokens.isSome) ∨
      (k = "presence_penalty" ∧ b.presence_penalty.isSome) ∨
      (k = "frequency_penalty" ∧ b.frequency_penalty.isSome) ∨
      (k = "logit_bias" ∧ b.logit_bias.isSome) ∨
      (k = "user" ∧ b.user.isSome) := by
  rw [ChatBody.toValue, Json.keys]
  exact mem_map_fst_fields

theorem lookupKey_temperature {b : ChatBody} {v : F} (h : b.temperature = some v) :
    (ChatBody.toValue b).lookupKey "temperature" = some (serialize_f32_two_decimals (some v)) := by
  simp +decide only [ChatBody.toValue, Json.lookupKey, ChatBody.fields, h, Option.map_some',
    lookupField, List.cons_append, List.nil_append, if_true, if_false, ite_true, ite_false,
    lookupField_optField_append_ne, lookupField_optField_append_hit,
    lookupField_optField_ne, lookupField_optField_hit]

theorem lookupKey_top_p {b : ChatBody} {v : F} (h : b.top_p = some v) :
    (ChatBody.toValue b).lookupKey "top_p" = some (serialize_f32_two_decimals (some v)) := by
  simp +decide only [ChatBody.toValue, Json.lookupKey, ChatBody.fields, h, Option.map_some',
    lookupField, List.cons_append, List.nil_append, if_true, if_false, ite_true, ite_false,
    lookupField_optField_append_ne, lookupField_optField_append_hit,
    lookupField_optField_ne, lookupField_optField_hit]

theorem lookupKey_presence_penalty {b : ChatBody} {v : F} (h : b.presence_penalty = some v) :
    (ChatBody.toValue b).lookupKey "presence_penalty" = some (serialize_f32_two_decimals (some v)) := by
  simp +decide only [ChatBody.toValue, Json.lookupKey, ChatBody.fields, h, Option.map_some',
    lookupField, List.cons_append, List.nil_append, if_true, if_false, ite_true, ite_false,
    lookupField_optField_append_ne, lookupField_optField_append_hit,
    lookupField_optField_ne, lookupField_optField_hit]

theorem lookupKey_frequency_penalty {b : ChatBody} {v : F} (h : b.frequency_penalty = some v) :
    (ChatBody.toValue b).lookupKey "frequency_penalty" = some (serialize_f32_two_decimals (some v)) := by
  simp +decide only [ChatBody.toValue, Json.lookupKey, ChatBody.fields, h, Option.map_some',
    lookupField, List.cons_append, List.nil_append, if_true, if_false, ite_true, ite_false,
    lookupField_optField_append_ne, lookupField_optField_append_hit,
    lookupField_optField_ne, lookupField_optField_hit]

theorem lookupKey_stop {b : ChatBody} {l : List String} (h : b.stop = some l) :
    (ChatBody.toValue b).lookupKey "stop" = some (Json.arr (l.map Json.str)) := by
  simp +decide only [ChatBody.toValue, Json.lookupKey, ChatBody.fields, h, Option.map_some',
    lookupField, List.cons_append, List.nil_append, if_true, if_false, ite_true, ite_false,
    lookupField_optField_append_ne, lookupField_optField_append_hit,
    lookupField_optField_ne, lookupField_optField_hit]

theorem lookupKey_messages (b : ChatBody) :
    (ChatBody.toValue b).lookupKey "messages" = some (Json.arr (b.messages.map Message.toValue)) := by
  simp +decide only [ChatBody.toValue, Json.lookupKey, ChatBody.fields, lookupField,
    List.cons_append, List.nil_append, if_true, if_false, ite_true, ite_false]

/-- `rustRound` picks a nearest integer: the tie-break (away from zero)
stays within half a unit. -/
theorem rustRound_nearest (q : ℚ) : |q - (rustRound q : ℚ)| ≤ 1 / 2 := by
  rw [abs_le, rustRound]
  split
  · constructor
    · have h := Int.floor_le (q + 1 / 2)
      push_cast at h ⊢
      linarith
    · have h := Int.lt_floor_add_one (q + 1 / 2)
      push_cast at h ⊢
      linarith
  · constructor
    · have h := Int.ceil_lt_add_one (q - 1 / 2)
      push_cast at h ⊢
      linarith
    · have h := Int.le_ceil (q - 1 / 2)
      push_cast at h ⊢
      linarith

/-- Unfolding of the serializer on a finite float. -/
theorem serialize_finite (v : ℚ) :
    serialize_f32_two_decimals (some (F.finite v)) =
      Json.num (((rustRound (v * 100) : ℤ) : ℚ) / 100) := rfl

/-- Claim C1: serializing any `ChatBody` omits the key of every optional
field whose value is unset: the encoded object contains no such key at all
(and so in particular never maps it to null, lookup on the association
list finding nothing). -/
theorem chatBody_unset_fields_omitted (b : ChatBody) :
    (b.temperature = none → "temperature" ∉ (ChatBody.toValue b).keys) ∧
    (b.top_p = none → "top_p" ∉ (ChatBody.toValue b).keys) ∧
    (b.n = none → "n" ∉ (ChatBody.toValue b).keys) ∧
    (b.stream = none → "stream" ∉ (ChatBody.toValue b).keys) ∧
    (b.stop = none → "stop" ∉ (ChatBody.toValue b).keys) ∧
    (b.max_tokens = none → "max_tokens" ∉ (ChatBody.toValue b).keys) ∧
    (b.presence_penalty = none → "presence_penalty" ∉ (ChatBody.toValue b).keys) ∧
    (b.frequency_penalty = none → "frequency_penalty" ∉ (ChatBody.toValue b).keys) ∧
    (b.logit_bias = none → "logit_bias" ∉ (ChatBody.toValue b).keys) ∧
    (b.user = none → "user" ∉ (ChatBody.toValue b).keys) := by
  refine ⟨?_, ?_, ?_, ?_, ?_, ?_, ?_, ?_, ?_, ?_⟩ <;>
    (intro h hmem
     rcases mem_keys_toValue.mp hmem with h1 | h1 | h1 | h1 | h1 | h1 | h1 | h1 | h1 | h1 | h1 | h1 <;>
       first
         | exact absurd h1 (by decide)
         | exact absurd h1.1 (by decide)
         | (rw [h] at h1; exact absurd h1.2 (by decide)))

/-- Claim C1, witness: on the request with every optional field unset, none
of the ten optional keys appears in the encoded object. -/
theorem chatBody_unset_fields_omitted_witness :
    "temperature" ∉ (ChatBody.toValue bodyAllUnset).keys ∧
    "top_p" ∉ (ChatBody.toValue bodyAllUnset).keys ∧
    "n" ∉ (ChatBody.toValue bodyAllUnset).keys ∧
    "stream" ∉ (ChatBody.toValue bodyAllUnset).keys ∧
    "stop" ∉ (ChatBody.toValue bodyAllUnset).keys ∧
    "max_tokens" ∉ (ChatBody.toValue bodyAllUnset).keys ∧
    "presence_penalty" ∉ (ChatBody.toValue bodyAllUnset).keys ∧
    "frequency_penalty" ∉ (ChatBody.toValue bodyAllUnset).keys ∧
    "logit_bias" ∉ (ChatBody.toValue bodyAllUnset).keys ∧
    "user" ∉ (ChatBody.toValue bodyAllUnset).keys := by
  obtain ⟨h1, h2, h3, h4, h5, h6, h7, h8, h9, h10⟩ :=
    chatBody_unset_fields_omitted bodyAllUnset
  exact ⟨h1 rfl, h2 rfl, h3 rfl, h4 rfl, h5 rfl, h6 rfl, h7 rfl, h8 rfl, h9 rfl, h10 rfl⟩

/-- Claim C2: a finite value v in [-2, 2] set in any of the four rounded
fields is carried in the serialized JSON as a numeric value (the `Json.num`
constructor, never a string) equal to `round(v*100)/100`: the emitted
rational is m/100 for an integer m within half a unit of v*100, produced by
the single deterministic rounding function `rustRound` (ties away from
zero), identical across all four fields. -/
theorem rounded_fields_two_decimal_numeric (b : ChatBody) (v : ℚ)
    (hlo : -2 ≤ v) (hhi : v ≤ 2) :
    (b.temperature = some (F.finite v) →
      ∃ m : ℤ, |v * 100 - (m : ℚ)| ≤ 1 / 2 ∧ m = rustRound (v * 100) ∧
        (ChatBody.toValue b).lookupKey "temperature" = some (Json.num ((m : ℚ) / 100))) ∧
    (b.top_p = some (F.finite v) →
      ∃ m : ℤ, |v * 100 - (m : ℚ)| ≤ 1 / 2 ∧ m = rustRound (v * 100) ∧
        (ChatBody.toValue b).lookupKey "top_p" = some (Json.num ((m : ℚ) / 100))) ∧
    (b.presence_penalty = some (F.finite v) →
      ∃ m : ℤ, |v * 100 - (m : ℚ)| ≤ 1 / 2 ∧ m = rustRound (v * 100) ∧
        (ChatBody.toValue b).lookupKey "presence_penalty" = some (Json.num ((m : ℚ) / 100))) ∧
    (b.frequency_penalty = some (F.finite v) →
      ∃ m : ℤ, |v * 100 - (m : ℚ)| ≤ 1 / 2 ∧ m = rustRound (v * 100) ∧
        (ChatBody.toValue b).lookupKey "frequency_penalty" = some (Json.num ((m : ℚ) / 100))) := by
  refine ⟨fun h => ⟨rustRound (v * 100), rustRound_nearest (v * 100), rfl, ?_⟩,
          fun h => ⟨rustRound (v * 100), rustRound_nearest (v * 100), rfl, ?_⟩,
          fun h => ⟨rustRound (v * 100), rustRound_nearest (v * 100), rfl, ?_⟩,
          fun h => ⟨rustRound (v * 100), rustRound_nearest (v * 100), rfl, ?_⟩⟩
  · rw [lookupKey_temperature h, serialize_finite]
  · rw [lookupKey_top_p h, serialize_finite]
  · rw [lookupKey_presence_penalty h, serialize_finite]
  · rw [lookupKey_frequency_penalty h, serialize_finite]

/-- Claim C2, witness: with temperature one half, the encoded value is the
number 50/100. -/
theorem rounded_fields_two_decimal_numeric_witness :
    ∃ m : ℤ, |(1 / 2 : ℚ) * 100 - (m : ℚ)| ≤ 1 / 2 ∧ m = rustRound ((1 / 2 : ℚ) * 100) ∧
      (ChatBody.toValue bodyHalf).lookupKey "temperature" = some (Json.num ((m : ℚ) / 100)) :=
  (rounded_fields_two_decimal_numeric bodyHalf (1 / 2) (by norm_num) (by norm_num)).1 rfl

/-- Claim C6: the messages of any `ChatBody` are encoded under the
`messages` key as a JSON array of exactly as many objects as there are
messages, in input order, each element being an object with `role` and
`content` string fields. -/
theorem messages_array_preserves_order (b : ChatBody) :
    (ChatBody.toValue b).lookupKey "messages" =
      some (Json.arr (b.messages.map Message.toValue)) ∧
    (b.messages.map Message.toValue).length = b.messages.length ∧
    ∀ i : ℕ, (b.messages.map Message.toValue)[i]? =
      (b.messages[i]?).map
        (fun m => Json.obj [("role", Json.str m.role.toWire), ("content", Json.str m.content)]) := by
  refine ⟨lookupKey_messages b, by simp, fun i => ?_⟩
  rw [List.getElem?_map]
  cases b.messages[i]? <;> rfl

/-- Claim C7: the end-to-end request of the test (`gpt-3.5-turbo`, one user
message "Hello!", max_tokens 7, temperature 0, top_p 0, n 2, stream false,
every other optional field unset) encodes to an object whose key set is
exactly model, messages, temperature, top_p, n, stream, max_tokens, with
temperature and top_p carried as the number 0 and stream as JSON false. -/
theorem end_to_end_request_body_exact :
    (ChatBody.toValue body7).keys =
      ["model", "messages", "temperature", "top_p", "n", "stream", "max_tokens"] ∧
    (ChatBody.toValue body7).lookupKey "model" = some (Json.str "gpt-3.5-turbo") ∧
    (ChatBody.toValue body7).lookupKey "messages" =
      some (Json.arr [Json.obj [("role", Json.str "user"), ("content", Json.str "Hello!")]]) ∧
    (ChatBody.toValue body7).lookupKey "temperature" = some (Json.num 0) ∧
    (ChatBody.toValue body7).lookupKey "top_p" = some (Json.num 0) ∧
    (ChatBody.toValue body7).lookupKey "n" = some (Json.num 2) ∧
    (ChatBody.toValue body7).lookupKey "stream" = some (Json.bool false) ∧
    (ChatBody.toValue body7).lookupKey "max_tokens" = some (Json.num 7) := by
  have hz : serialize_f32_two_decimals (some (F.finite 0)) = Json.num 0 := by
    rw [serialize_finite]
    norm_num [rustRound]
  have hobj : ChatBody.toValue body7 = Json.obj
      [("model", Json.str "gpt-3.5-turbo"),
       ("messages", Json.arr [Json.obj [("role", Json.str "user"), ("content", Json.str "Hello!")]]),
       ("temperature", Json.num 0),
       ("top_p", Json.num 0),
       ("n", Json.num 2),
       ("stream", Json.bool false),
       ("max_tokens", Json.num 7)] := by
    simp only [ChatBody.toValue, ChatBody.fields, body7, optField, Option.map_some',
      List.cons_append, List.nil_append, Message.toValue, Role.toWire, hz]
    norm_num
    rfl
  rw [hobj]
  exact ⟨rfl, rfl, rfl, rfl, rfl, rfl, rfl, rfl⟩

/-- Claim C9: every invocation of `chat_completion_create` hands exactly one
request body to the collaborator `post` — the recorded trace is the
one-element list holding the encoded body, under every outcome (transport
failure, decode failure, success), so never zero calls past encoding and
never more than one; the function is pure, so no result caching and no
state survives an invocation. -/
theorem single_post_per_invocation (post : Json → Except String Json) (b : ChatBody) :
    (chat_completion_create post b).2 = [ChatBody.toValue b] := by
  cases hp : post (ChatBody.toValue b) with
  | error e => simp [chat_completion_create, hp]
  | ok res => cases hc : completionFromValue res <;> simp [chat_completion_create, hp, hc]

/-- Claim C10: the `None` arm of `serialize_f32_two_decimals` (which would
emit an explicit null) is unreachable while serializing any `ChatBody`:
replacing that arm by a marker value never changes the serialization of any
request, because each field using the serializer also carries the
skip-when-None attribute, so the serializer is only invoked on `some`. -/
theorem serializer_none_branch_dead (b : ChatBody) :
    ChatBody.toValue b = ChatBody.toValueMarked b ∧
    serialize_f32_two_decimals none = Json.null := by
  constructor
  · obtain ⟨mo, me, t, tp, n, st, sp, mt, pp, fp, lb, u⟩ := b
    cases t <;> cases tp <;> cases pp <;> cases fp <;> rfl
  · rfl

/-- Claim C3, counterexample: when the collaborator answers with valid JSON
lacking the `choices` array, the call does not return a DecodingError
result — line 102 of `chat.rs` unwraps the failed parse, so the invocation
panics instead of returning (it also never returns a defaulted
Completion). -/
theorem missing_choices_counterexample :
    (chat_completion_create postNoChoices bodyAllUnset).1 =
      Outcome.panicked "called Result unwrap on an Err value" ∧
    Outcome.isDecodingError (chat_completion_create postNoChoices bodyAllUnset).1 = false ∧
    Outcome.isOk (chat_completion_create postNoChoices bodyAllUnset).1 = false :=
  ⟨rfl, rfl, rfl⟩

/-- Claim C3, amended: when the POST succeeds but the body does not
deserialize into a Completion, the call panics at the `unwrap()` of
line 102 — it never returns an empty or defaulted Completion and the
failure is never silently ignored, but no DecodingError value reaches the
caller either. -/
theorem decode_failure_panics (post : Json → Except String Json) (b : ChatBody) (res : Json)
    (h1 : post (ChatBody.toValue b) = Except.ok res)
    (h2 : completionFromValue res = none) :
    (chat_completion_create post b).1 =
      Outcome.panicked "called Result unwrap on an Err value" ∧
    Outcome.isOk (chat_completion_create post b).1 = false ∧
    Outcome.isDecodingError (chat_completion_create post b).1 = false := by
  simp [chat_completion_create, h1, h2, Outcome.isOk, Outcome.isDecodingError]

/-- Claim C3, amended, witness. -/
theorem decode_failure_panics_witness :
    (chat_completion_create postNoChoices bodyAllUnset).1 =
      Outcome.panicked "called Result unwrap on an Err value" ∧
    Outcome.isOk (chat_completion_create postNoChoices bodyAllUnset).1 = false ∧
    Outcome.isDecodingError (chat_completion_create postNoChoices bodyAllUnset).1 = false :=
  decode_failure_panics postNoChoices bodyAllUnset
    (Json.obj [("id", Json.str "chatcmpl-1")]) rfl rfl

/-- Claim C4, counterexample: a `ChatBody` holding the non-finite float NaN
— the very example the claim gives of a value that cannot be represented —
does not surface an EncodingError: serialization succeeds, silently
carrying `temperature` as JSON null, and the call completes normally. -/
theorem nan_body_encodes_silently :
    (chat_completion_create postEmptyChoices bodyNan).1 = Outcome.ok ⟨[]⟩ ∧
    Outcome.isEncodingError (chat_completion_create postEmptyChoices bodyNan).1 = false ∧
    (ChatBody.toValue bodyNan).lookupKey "temperature" = some Json.null :=
  ⟨rfl, rfl, rfl⟩

/-- Claim C4, amended: encoding a `ChatBody` never fails at all —
`serde_json::to_value` is total on this struct, so `chat_completion_create`
never returns an EncodingError under any collaborator and any request; a
non-finite float in a rounded field is silently encoded as JSON null
rather than rejected (and the `unwrap()` on line 100 would turn any
hypothetical serialization failure into a panic, not an error value). -/
theorem encoding_never_surfaces_error (post : Json → Except String Json) (b : ChatBody) :
    Outcome.isEncodingError (chat_completion_create post b).1 = false ∧
    (b.temperature = some F.nan →
      (ChatBody.toValue b).lookupKey "temperature" = some Json.null) := by
  constructor
  · cases hp : post (ChatBody.toValue b) with
    | error e => simp [chat_completion_create, hp, Outcome.isEncodingError]
    | ok res =>
      cases hc : completionFromValue res <;>
        simp [chat_completion_create, hp, hc, Outcome.isEncodingError]
  · intro h
    rw [lookupKey_temperature h]
    rfl

/-- Claim C4, amended, witness. -/
theorem encoding_never_surfaces_error_witness :
    Outcome.isEncodingError (chat_completion_create postEmptyChoices bodyNan).1 = false ∧
    (ChatBody.toValue bodyNan).lookupKey "temperature" = some Json.null := by
  obtain ⟨h1, h2⟩ := encoding_never_surfaces_error postEmptyChoices bodyNan
  exact ⟨h1, h2 rfl⟩

/-- Claim C5: when the collaborator fails at transport level, the call
returns a TransportError carrying the collaborator diagnostic verbatim
(the `?` on line 101 propagates it unchanged), never a Completion, and the
recorded trace still holds exactly one POST — no retry. -/
theorem transport_failure_propagated_verbatim (post : Json → Except String Json)
    (b : ChatBody) (d : String) (h : post (ChatBody.toValue b) = Except.error d) :
    (chat_completion_create post b).1 = Outcome.err (ApiErr.TransportError d) ∧
    Outcome.isOk (chat_completion_create post b).1 = false ∧
    (chat_completion_create post b).2 = [ChatBody.toValue b] := by
  simp [chat_completion_create, h, Outcome.isOk]

/-- Claim C5, witness. -/
theorem transport_failure_propagated_verbatim_witness :
    (chat_completion_create postFail bodyAllUnset).1 =
      Outcome.err (ApiErr.TransportError "connection refused") ∧
    Outcome.isOk (chat_completion_create postFail bodyAllUnset).1 = false ∧
    (chat_completion_create postFail bodyAllUnset).2 = [ChatBody.toValue bodyAllUnset] :=
  transport_failure_propagated_verbatim postFail bodyAllUnset "connection refused" rfl

/-- Claim C8, counterexample: a `ChatBody` whose stop sequence has five
elements is representable (the struct field is a plain `Option<Vec<String>>`
with no length check) and its full five-element sequence is transmitted. -/
theorem five_stop_sequences_transmitted :
    bodyFiveStops.stop.map List.length = some 5 ∧
    (ChatBody.toValue bodyFiveStops).lookupKey "stop" =
      some (Json.arr [Json.str "a", Json.str "b", Json.str "c", Json.str "d", Json.str "e"]) :=
  ⟨rfl, rfl⟩

/-- Claim C8, amended: `stop` is an optional ordered sequence of
stop-sequence strings transmitted in full and in order; the up-to-four
limit of the documentation is not enforced by the type or the encoder, so
longer sequences are representable and transmitted as well. -/
theorem stop_transmitted_unbounded (b : ChatBody) (l : List String) (h : b.stop = some l) :
    (ChatBody.toValue b).lookupKey "stop" = some (Json.arr (l.map Json.str)) ∧
    (l.map Json.str).length = l.length :=
  ⟨lookupKey_stop h, by simp⟩

/-- Claim C8, amended, witness. -/
theorem stop_transmitted_unbounded_witness :
    (ChatBody.toValue bodyFiveStops).lookupKey "stop" =
      some (Json.arr ((["a", "b", "c", "d", "e"] : List String).map Json.str)) ∧
    ((["a", "b", "c", "d", "e"] : List String).map Json.str).length =
      (["a", "b", "c", "d", "e"] : List String).length :=
  stop_transmitted_unbounded bodyFiveStops ["a", "b", "c", "d", "e"] rfl
